import Mathlib

set_option autoImplicit false

/-!
Shallow embedding of `mhask/__init__.py` (micropython-mhask): a minimal
Flask-like HTTP request dispatcher.  Raw byte buffers are modelled as
`String` (the source immediately calls `bites.decode()`); MicroPython
integers are `Nat` where the source only ever holds non-negative values
(status codes, lengths).  Python dictionaries are modelled as
insertion-ordered association lists with overwrite-in-place update
(`dictInsert`), matching CPython semantics; handlers are Lean functions
returning an explicit outcome (normal value, `Response`, `HTTPException`,
or any other exception as a (class-name, message) pair).
-/

namespace Mhask

/-- Python `str.splitlines` worker over the character list, with the
accumulator holding the current (reversed) line.  The model covers the
`\r\n`, `\r` and `\n` terminators that occur on the HTTP wire; the source's
`splitlines` also treats rarer control characters (`\v`, `\f`, ...) as
terminators, which no claim exercises. -/
def splitlinesGo : List Char → List Char → List String
  | [], acc => if acc.isEmpty then [] else [⟨acc.reverse⟩]
  | '\r' :: '\n' :: rest, acc => ⟨acc.reverse⟩ :: splitlinesGo rest []
  | '\r' :: rest, acc => ⟨acc.reverse⟩ :: splitlinesGo rest []
  | '\n' :: rest, acc => ⟨acc.reverse⟩ :: splitlinesGo rest []
  | c :: rest, acc => splitlinesGo rest (c :: acc)

/-- Python `s.splitlines()`: no trailing empty line after a final terminator,
and `"".splitlines() == []`. -/
def splitlines (s : String) : List String := splitlinesGo s.data []

/-- Worker for `pySplitChar`. -/
def splitCharGo (sep : Char) : List Char → List Char → List String
  | [], acc => [⟨acc.reverse⟩]
  | c :: rest, acc =>
    if c = sep then ⟨acc.reverse⟩ :: splitCharGo sep rest []
    else splitCharGo sep rest (c :: acc)

/-- Python `s.split(sep)` for a one-character separator: keeps empty pieces,
`"".split(sep) == [""]`. -/
def pySplitChar (sep : Char) (s : String) : List String := splitCharGo sep s.data []

/-- Python whitespace as used by `str.split()` / `str.strip()`. -/
def isPySpace (c : Char) : Bool :=
  c = ' ' || c = '\t' || c = '\n' || c = '\r' || c = '\x0b' || c = '\x0c'

/-- Worker for `pySplitWs`. -/
def pySplitWsGo : List Char → List Char → List String
  | [], acc => if acc.isEmpty then [] else [⟨acc.reverse⟩]
  | c :: rest, acc =>
    if isPySpace c then
      if acc.isEmpty then pySplitWsGo rest []
      else ⟨acc.reverse⟩ :: pySplitWsGo rest []
    else pySplitWsGo rest (c :: acc)

/-- Python `s.split()` with no argument: split on runs of whitespace,
dropping empty pieces. -/
def pySplitWs (s : String) : List String := pySplitWsGo s.data []

/-- Python `s.strip()`: remove leading and trailing whitespace. -/
def pyStrip (s : String) : String :=
  ⟨((s.data.dropWhile isPySpace).reverse.dropWhile isPySpace).reverse⟩

/-- Worker for `splitFirst`. -/
def splitFirstGo (sep : Char) : List Char → List Char → Option (String × String)
  | [], _ => none
  | c :: rest, acc =>
    if c = sep then some (⟨acc.reverse⟩, ⟨rest⟩) else splitFirstGo sep rest (c :: acc)

/-- Python `k, v = s.split(sep, 1)`: split at the first occurrence of `sep`;
`none` models the `ValueError` of the unpacking when `sep` is absent. -/
def splitFirst (sep : Char) (s : String) : Option (String × String) :=
  splitFirstGo sep s.data []

/-- Python `''.join(pieces)`: concatenation without separator. -/
def pyJoin : List String → String
  | [] => ""
  | s :: rest => s ++ pyJoin rest

/-- Python `sep.join(pieces)`. -/
def pyJoinSep (sep : String) : List String → String
  | [] => ""
  | [s] => s
  | s :: rest => s ++ sep ++ pyJoinSep sep rest

/-- Python `d[k] = v` on an insertion-ordered dictionary modelled as an
association list: overwrite in place if the key exists, else append. -/
def dictInsert {α β : Type} [DecidableEq α] (k : α) (v : β) :
    List (α × β) → List (α × β)
  | [] => [(k, v)]
  | (k2, v2) :: rest =>
    if k2 = k then (k, v) :: rest else (k2, v2) :: dictInsert k v rest

/-- Key of the `statuses` dictionary: the source mixes integer keys
(concrete codes) and one-character string keys (status classes). -/
inductive StatusKey where
  | num : Nat → StatusKey
  | cls : String → StatusKey
deriving DecidableEq, BEq

/-- The `statuses` table of the source, in source order. -/
def statuses : List (StatusKey × (String × String)) := [
  (.cls "1", ("Information", "")),
  (.num 100, ("Continue", "The server has received the request headers, and the client should proceed to send the request body")),
  (.num 101, ("Switching Protocols", "The requester has asked the server to switch protocols")),
  (.num 103, ("Checkpoint", "Used in the resumable requests proposal to resume aborted PUT or POST requests")),
  (.cls "2", ("Successful", "")),
  (.num 200, ("OK", "The request is OK (this is the standard response for successful HTTP requests)")),
  (.num 201, ("Created", "The request has been fulfilled, and a new resource is created")),
  (.num 202, ("Accepted", "The request has been accepted for processing, but the processing has not been completed")),
  (.num 203, ("Non-Authoritative Information", "The request has been successfully processed, but is returning information that may be from another source")),
  (.num 204, ("No Content", "The request has been successfully processed, but is not returning any content")),
  (.num 205, ("Reset Content", "The request has been successfully processed, but is not returning any content, and requires that the requester reset the document view")),
  (.num 206, ("Partial Content", "The server is delivering only part of the resource due to a range header sent by the client")),
  (.cls "3", ("Redirection", "")),
  (.num 300, ("Multiple Choices", "A link list. The user can select a link and go to that location. Maximum five addresses")),
  (.num 301, ("Moved Permanently", "The requested page has moved to a new URL")),
  (.num 302, ("Found", "The requested page has moved temporarily to a new URL")),
  (.num 303, ("See Other", "The requested page can be found under a different URL")),
  (.num 304, ("Not Modified", "Indicates the requested page has not been modified since last requested")),
  (.num 306, ("Switch Proxy", "-- No longer used --")),
  (.num 307, ("Temporary Redirect", "The requested page has moved temporarily to a new URL")),
  (.num 308, ("Resume Incomplete", "Used in the resumable requests proposal to resume aborted PUT or POST requests")),
  (.cls "4", ("Client Error", "")),
  (.num 400, ("Bad Request", "The request cannot be fulfilled due to bad syntax")),
  (.num 401, ("Unauthorized", "The request was a legal request, but the server is refusing to respond to it. For use when authentication is possible but has failed or not yet been provided")),
  (.num 402, ("Payment Required", "-- Reserved for future use --")),
  (.num 403, ("Forbidden", "The request was a legal request, but the server is refusing to respond to it")),
  (.num 404, ("Not Found", "The requested page could not be found but may be available again in the future")),
  (.num 405, ("Method Not Allowed", "A request was made of a page using a request method not supported by that page")),
  (.num 406, ("Not Acceptable", "The server can only generate a response that is not accepted by the client")),
  (.num 407, ("Proxy Authentication Required", "The client must first authenticate itself with the proxy")),
  (.num 408, ("Request Timeout", "The server timed out waiting for the request")),
  (.num 409, ("Conflict", "The request could not be completed because of a conflict in the request")),
  (.num 410, ("Gone", "The requested page is no longer available")),
  (.num 411, ("Length Required", "The \"Content-Length\" is not defined. The server will not accept the request without it")),
  (.num 412, ("Precondition Failed", "The precondition given in the request evaluated to false by the server")),
  (.num 413, ("Request Entity Too Large", "The server will not accept the request, because the request entity is too large")),
  (.num 414, ("Request-URI Too Long", "The server will not accept the request, because the URL is too long. Occurs when you convert a POST request to a GET request with a long query information")),
  (.num 415, ("Unsupported Media Type", "The server will not accept the request, because the media type is not supported")),
  (.num 416, ("Requested Range Not Satisfiable", "The client has asked for a portion of the file, but the server cannot supply that portion")),
  (.num 417, ("Expectation Failed", "The server cannot meet the requirements of the Expect request-header field")),
  (.num 418, ("I\x27m a teapot", "Any attempt to brew coffee with a teapot should result in the error code \"418 I\x27m a teapot\". The resulting entity body MAY be short and stout")),
  (.num 421, ("Misdirected Request", "The request was directed at a server that is not able to produce a response (for example because a connection reuse)")),
  (.num 422, ("Unprocessable Entity", "The request was well-formed but was unable to be followed due to semantic errors")),
  (.num 423, ("Locked", "The resource that is being accessed is locked")),
  (.num 424, ("Failed Dependency", "The request failed due to failure of a previous request (e.g., a PROPPATCH)")),
  (.num 426, ("Upgrade Required", "The client should switch to a different protocol such as TLS\\/1.0, given in the Upgrade header field")),
  (.num 428, ("Precondition Required", "The origin server requires the request to be conditional")),
  (.num 429, ("Too Many Requests", "The user has sent too many requests in a given amount of time. Intended for use with rate limiting schemes")),
  (.num 431, ("Request Header Fields Too Large", "The server is unwilling to process the request because either an individual header field, or all the header fields collectively, are too large")),
  (.num 451, ("Unavailable For Legal Reasons", "A server operator has received a legal demand to deny access to a resource or to a set of resources that includes the requested resource")),
  (.cls "5", ("Server Error", "")),
  (.num 500, ("Internal Server Error", "An error has occured in a server side script, a no more specific message is suitable")),
  (.num 501, ("Not Implemented", "The server either does not recognize the request method, or it lacks the ability to fulfill the request")),
  (.num 502, ("Bad Gateway", "The server was acting as a gateway or proxy and received an invalid response from the upstream server")),
  (.num 503, ("Service Unavailable", "The server is currently unavailable (overloaded or down)")),
  (.num 504, ("Gateway Timeout", "The server was acting as a gateway or proxy and did not receive a timely response from the upstream server")),
  (.num 505, ("HTTP Version Not Supported", "The server does not support the HTTP protocol version used in the request")),
  (.num 511, ("Network Authentication Required", "The client needs to authenticate to gain network access"))]

/-- The pair produced by the `except` branch of `getstatus`. -/
def unknownStatus : String × String :=
  ("Unknown", "The meaning of this HTTP status is unknown.")

/-- Python `str(code)[0]` as a one-character string. -/
def leadingDigit (code : Nat) : String :=
  match (Nat.repr code).data with
  | [] => ""
  | c :: _ => ⟨[c]⟩

/-- Embedding of `getstatus(code)`.  In the source the fallback argument
`statuses[str(code)[0]]` is evaluated eagerly, before `.get` runs, so a
missing class entry raises `KeyError` and lands in the `except` branch
regardless of whether the code itself is in the table. -/
def getstatus (code : Nat) : String × String :=
  match statuses.lookup (StatusKey.cls (leadingDigit code)) with
  | none => unknownStatus
  | some clsEntry => (statuses.lookup (StatusKey.num code)).getD clsEntry

/-- Embedding of `HTTPException(message, status=...)`. -/
structure HTTPException where
  message : String
  status : Nat
deriving DecidableEq

/-- Embedding of `Request`: method, path, protocol, headers, body. -/
structure Request where
  method : String
  path : String
  protocol : String
  headers : List (String × String)
  body : String
deriving DecidableEq

/-- The header loop of `Request.__init__`: each line is split at its first
colon (a line without one raises `ValueError`, modelled as `none`), key and
value are stripped, later duplicates overwrite earlier ones. -/
def parseHeaders : List String → List (String × String) → Option (List (String × String))
  | [], acc => some acc
  | h :: rest, acc =>
    match splitFirst ':' h with
    | none => none
    | some (k, v) => parseHeaders rest (dictInsert (pyStrip k) (pyStrip v) acc)

/-- Embedding of `Request.__init__(bites)`: `none` models the unhandled
exceptions of the source (empty input, a request line that does not split
into exactly three tokens, no blank line, a header line without a colon).
The body is `''.join` of the lines strictly after the first blank line. -/
def Request.init (bites : String) : Option Request :=
  match splitlines bites with
  | [] => none
  | bang :: content =>
    match pySplitWs bang with
    | [method, path, protocol] =>
      match content.findIdx? (fun l => l = "") with
      | none => none
      | some i =>
        match parseHeaders (content.take i) [] with
        | none => none
        | some headers =>
          some { method := method, path := path, protocol := protocol,
                 headers := headers,
                 body := pyJoin (content.drop (i + 1)) }
    | _ => none

/-- Embedding of `Request.__str__`. -/
def Request.str (self : Request) : String := self.method ++ " " ++ self.path

/-- Embedding of `Request.json(failsafe)`.  The JSON codec (`ujson.loads`)
is an external library, passed in as `loads`; `Except.error e` models the
codec raising an exception whose `str` is `e`. -/
def Request.json {α : Type} (loads : String → Except String α) (self : Request)
    (failsafe : Bool) : Except HTTPException (Option α) :=
  match loads self.body with
  | .ok v => .ok (some v)
  | .error e =>
    if failsafe then .ok none
    else .error { message := "Invalid JSON (" ++ e ++ ")", status := 400 }

/-- The class-level default headers of `Response`. -/
def responseClassHeaders : List (String × String) :=
  [("server", "mhask/0.0.0"), ("content-type", "text/plain")]

/-- Embedding of `Response`: status, headers, body.  The source stores the
body as `str`; mutation of a field between construction and rendering is
modelled by functional update. -/
structure Response where
  status : Nat
  headers : List (String × String)
  body : String
deriving DecidableEq

/-- The default body `': '.join(filter(bool, ((str(status),) + getstatus(status))))`. -/
def Response.defaultBody (status : Nat) : String :=
  pyJoinSep ": "
    (([Nat.repr status, (getstatus status).1, (getstatus status).2]).filter (fun s => s ≠ ""))

/-- Embedding of `Response.__init__(body, status, headers)`: `none` body
models Python `None`; the headers argument updates a copy of the class-level
defaults. -/
def Response.init (body : Option String) (status : Nat) (headers : List (String × String)) :
    Response :=
  { status := status,
    body := match body with
      | some b => b
      | none => Response.defaultBody status,
    headers := headers.foldl (fun acc kv => dictInsert kv.1 kv.2 acc) responseClassHeaders }

/-- The header dictionary as rendered: `self.headers['content-length'] = len(self.body)`
runs first, so the header list rendered is the stored one with the
content-length entry overwritten (or appended) from the current body. -/
def Response.renderHeaderList (self : Response) : List (String × String) :=
  dictInsert "content-length" (Nat.repr self.body.length) self.headers

/-- Embedding of `Response.__str__`: status line (the source writes the
literal protocol token `HTTP/1.0`), headers, blank line, body, trailing CRLF. -/
def Response.render (self : Response) : String :=
  "HTTP/1.0 " ++ Nat.repr self.status ++ " " ++ (getstatus self.status).1 ++ "\r\n"
    ++ pyJoin (self.renderHeaderList.map (fun kv => kv.1 ++ ": " ++ kv.2 ++ "\r\n"))
    ++ "\r\n" ++ self.body ++ "\r\n"

/-- One atom of the matching expression built by `App.resolve`: the source
joins the `/`-split route segments, replacing a segment that begins with a
colon by the regex fragment `[^/].*` (one character that is not a slash,
then any characters, slashes included).  `ch c` is a literal character of
the regex; literal route segments contain no regex metacharacters in this
repository, so they match themselves character by character. -/
inductive Atom where
  | ch : Char → Atom
  | wild : Atom
deriving DecidableEq

/-- Whether a route segment begins with a colon (Python
`c.replace(':%s' % c[1:], '[^/].*')` rewrites the whole segment exactly when
it starts with `:`, since the replaced string has the segment's length). -/
def segStartsWithColon (c : String) : Bool :=
  match c.data with
  | ':' :: _ => true
  | _ => false

/-- Atoms of a single route segment. -/
def segmentAtoms (c : String) : List Atom :=
  if segStartsWithColon c then [Atom.wild] else c.data.map Atom.ch

/-- Atoms of the whole anchored matching expression
`'^' + '/'.join(segments) + '$'`. -/
def routeAtoms (route : String) : List Atom :=
  List.intercalate [Atom.ch '/'] ((pySplitChar '/' route).map segmentAtoms)

/-- Matching the anchored expression against the whole character list:
`wild` is `[^/].*`, i.e. one non-slash character followed by any suffix
split (backtracking existential semantics of `ure.match`). -/
def matchAtoms : List Atom → List Char → Bool
  | [], [] => true
  | [], _ :: _ => false
  | Atom.ch _ :: _, [] => false
  | Atom.ch a :: atoms, c :: cs => a == c && matchAtoms atoms cs
  | Atom.wild :: _, [] => false
  | Atom.wild :: atoms, c :: cs =>
      !(c == '/') && (List.range (cs.length + 1)).any (fun k => matchAtoms atoms (cs.drop k))

/-- Truthiness of `ure.match('^' + pattern + '$', path)` for the expression
built from `route`. -/
def routeMatches (route : String) (path : String) : Bool :=
  matchAtoms (routeAtoms route) path.data

/-- Python `component.lstrip(':')`. -/
def stripLeadingColons (s : String) : String :=
  ⟨s.data.dropWhile (fun c => c == ':')⟩

/-- The argument-extraction loop of `App.resolve`: for each route segment
starting with a colon, take the same-position segment of the actual request
path and bind it (skipping empty values) under the name with leading colons
stripped.  The source indexes `request.path.split('/')[i]` directly, which
cannot be out of range once the anchored match succeeded; `getD` with `""`
is only reached in that impossible case. -/
def extractArgs (route : String) (path : String) : List (String × String) :=
  ((pySplitChar '/' route).enum).foldl
    (fun arguments ic =>
      if segStartsWithColon ic.2 then
        if ((pySplitChar '/' path).getD ic.1 "").length ≠ 0 then
          dictInsert (stripLeadingColons ic.2) ((pySplitChar '/' path).getD ic.1 "") arguments
        else arguments
      else arguments)
    []

/-- Outcome of invoking a route handler `callback(**arguments)`: a normal
return value (a `Response`, or a raw value that `handle` coerces — `none`
models returning Python `None`), an `HTTPException`, or any other exception
as (class name, message). -/
inductive HandlerOutcome where
  | response : Response → HandlerOutcome
  | value : Option String → HandlerOutcome
  | httpExc : HTTPException → HandlerOutcome
  | failure : String → String → HandlerOutcome

/-- A route handler. -/
def Handler : Type := List (String × String) → HandlerOutcome

/-- One entry of `App.endpoints`: key `(route, tuple(methods))`, value the
handler. -/
def Endpoint : Type := (String × List String) × Handler

/-- The sort key of `App.resolve`: `len(l[0][0])`, the character length of
the route pattern string. -/
def endpointKeyLen (e : Endpoint) : Nat := e.1.1.length

/-- Insert into a list already sorted by `endpointKeyLen` descending,
before the first entry of smaller-or-equal key (so earlier entries precede
later ones of equal key, as Python's stable `sorted` does). -/
def insertByLenDesc (x : Endpoint) : List Endpoint → List Endpoint
  | [] => [x]
  | y :: ys =>
    if endpointKeyLen y ≤ endpointKeyLen x then x :: y :: ys
    else y :: insertByLenDesc x ys

/-- Python `sorted(endpoints.items(), key=lambda l: len(l[0][0]), reverse=True)`
as a stable insertion sort.  The model iterates the dictionary in insertion
order. -/
def sortEndpoints : List Endpoint → List Endpoint
  | [] => []
  | x :: xs => insertByLenDesc x (sortEndpoints xs)

/-- The successful result of `App.resolve`: `(route, methods, callback, arguments)`. -/
def ResolveOk : Type := String × List String × Handler × List (String × String)

/-- The search loop of `App.resolve` over the sorted endpoint list: first
binding whose method set contains the request method and whose pattern
matches the path wins; exhaustion raises `HTTPException(..., status=404)`. -/
def resolveGo (req : Request) : List Endpoint → Except HTTPException ResolveOk
  | [] =>
    .error { message := "No route found for request " ++ Request.str req, status := 404 }
  | ep :: rest =>
    if ep.1.2.contains req.method && routeMatches ep.1.1 req.path then
      .ok (ep.1.1, ep.1.2, ep.2, extractArgs ep.1.1 req.path)
    else resolveGo req rest

/-- Embedding of `App.resolve(request)`. -/
def resolve (endpoints : List Endpoint) (req : Request) : Except HTTPException ResolveOk :=
  resolveGo req (sortEndpoints endpoints)

/-- Observable outcome of `App.handle`: a returned `Response`, or an
exception propagating out of `handle` (the `raise` of the debug branch,
carrying the original failure's class name and message). -/
inductive HandleResult where
  | response : Response → HandleResult
  | reraise : String → String → HandleResult

/-- Embedding of `App.handle(bytes)`.  `none` models a parse failure in
`Request(bytes)`, which the source deliberately does not catch.
`HTTPException` from resolve or from the handler becomes
`Response(str(e), e.status)`; any other handler failure becomes
`Response('<class>: <message>', 500)`, re-raised instead when debug is on;
a non-`Response` handler result is coerced through `Response(result)`. -/
def App.handle (endpoints : List Endpoint) (debug : Bool) (bytes : String) :
    Option HandleResult :=
  match Request.init bytes with
  | none => none
  | some req =>
    match resolve endpoints req with
    | .error e => some (.response (Response.init (some e.message) e.status []))
    | .ok (_route, _methods, callback, arguments) =>
      match callback arguments with
      | .response r => some (.response r)
      | .value v => some (.response (Response.init v 200 []))
      | .httpExc e => some (.response (Response.init (some e.message) e.status []))
      | .failure cls msg =>
        if debug then some (.reraise cls msg)
        else some (.response (Response.init (some (cls ++ ": " ++ msg)) 500 []))

/-- An `App` instance.  In the source, `endpoints` is a class attribute of
`App` (a single dictionary created at class-definition time and mutated in
place by `self.endpoints[...] = f`), so it is modelled as a separate
`AppClassState` shared by every instance rather than as a field here. -/
structure AppInst where
  debug : Bool

/-- The class-level mutable state of `App`: the shared `endpoints` dictionary. -/
structure AppClassState where
  endpoints : List Endpoint

/-- Embedding of the `App.route` decorator called on instance `_self`:
`self.endpoints[route, tuple(methods)] = f` mutates the class-level
dictionary, whichever instance the call goes through. -/
def App.route (state : AppClassState) (_self : AppInst) (route : String)
    (methods : List String) (f : Handler) : AppClassState :=
  { endpoints := dictInsert (route, methods) f state.endpoints }

/-- `App.resolve` called on instance `_self`: `self.endpoints` reads the
class-level dictionary. -/
def App.resolveInst (state : AppClassState) (_self : AppInst) (req : Request) :
    Except HTTPException ResolveOk :=
  resolve state.endpoints req

/-! Helper lemmas shared by the claim theorems. -/

theorem splitlinesGo_crlf (rest acc : List Char) :
    splitlinesGo ('\r' :: '\n' :: rest) acc = ⟨acc.reverse⟩ :: splitlinesGo rest [] := rfl

theorem splitlinesGo_cons_other (c : Char) (rest acc : List Char)
    (hr : ¬ c = '\r') (hn : ¬ c = '\n') :
    splitlinesGo (c :: rest) acc = splitlinesGo rest (c :: acc) := by
  rcases rest with _ | ⟨c2, rest2⟩ <;> simp [splitlinesGo, hr, hn]

theorem splitlinesGo_noterm (l : List Char)
    (h : l.all (fun c => !(c == '\r') && !(c == '\n')) = true) :
    ∀ (cs acc : List Char), splitlinesGo (l ++ cs) acc = splitlinesGo cs (l.reverse ++ acc) := by
  induction l with
  | nil => intro cs acc; simp
  | cons c l ih =>
    intro cs acc
    simp only [List.all_cons, Bool.and_eq_true, Bool.not_eq_true'] at h
    rw [List.cons_append,
      splitlinesGo_cons_other c _ acc (by simpa using h.1.1) (by simpa using h.1.2)]
    rw [ih (by simpa using h.2)]
    simp

theorem dictInsert_split {α β : Type} [DecidableEq α] (k : α) (v : β) (l : List (α × β)) :
    ∃ l1 l2, dictInsert k v l = l1 ++ (k, v) :: l2 := by
  induction l with
  | nil => exact ⟨[], [], rfl⟩
  | cons p rest ih =>
    obtain ⟨k2, v2⟩ := p
    by_cases h : k2 = k
    · exact ⟨[], rest, by simp [dictInsert, h]⟩
    · obtain ⟨l1, l2, he⟩ := ih
      exact ⟨(k2, v2) :: l1, l2, by simp [dictInsert, h, he]⟩

theorem pyJoin_append (a b : List String) : pyJoin (a ++ b) = pyJoin a ++ pyJoin b := by
  induction a with
  | nil => simp [pyJoin]
  | cons s a ih => simp [pyJoin, ih, String.append_assoc]

theorem matchAtoms_nil (cs : List Char) : matchAtoms [] cs = cs.isEmpty := by
  cases cs <;> rfl

theorem range_any_drop_isEmpty (t : List Char) :
    ((List.range (t.length + 1)).any fun k => (t.drop k).isEmpty) = true := by
  rw [List.any_eq_true]
  exact ⟨t.length, by simp [List.mem_range], by simp⟩

/-! Claim theorems. -/

/-- C9: `getstatus` always returns a `(name, description)` pair and never
throws; a code absent from the numeric entries of the table falls back to
the entry of its leading digit's class (460 falls to the `"4"` class
entry), and when that class entry is also absent (600), to the generic
"Unknown" pair. -/
theorem getstatus_fallback_total :
    (∀ code : Nat, statuses.lookup (StatusKey.num code) = none →
      getstatus code = (statuses.lookup (StatusKey.cls (leadingDigit code))).getD unknownStatus) ∧
    getstatus 460 = ("Client Error", "") ∧
    getstatus 600 = ("Unknown", "The meaning of this HTTP status is unknown.") := by
  refine ⟨?_, by decide, by decide⟩
  intro code h
  unfold getstatus
  cases hcls : statuses.lookup (StatusKey.cls (leadingDigit code)) with
  | none => rfl
  | some clsEntry => simp [h]

/-- Witness for C9 at code 460: 460 has no numeric entry, so the lookup
falls back to the class entry of its leading digit. -/
theorem getstatus_fallback_total_witness :
    statuses.lookup (StatusKey.num 460) = none ∧
    getstatus 460 = (statuses.lookup (StatusKey.cls (leadingDigit 460))).getD unknownStatus :=
  ⟨by decide, getstatus_fallback_total.1 460 (by decide)⟩

/-- C1 counterexample: the source renders the literal protocol token
`HTTP/1.0`, so the bytes rendered for a default 200 response do not begin
with `"HTTP/1.1"` as the claim states. -/
theorem render_not_http11 :
    "HTTP/1.1".data.isPrefixOf (Response.init none 200 []).render.data = false := by decide

/-- C1 (amended): for every `Response`, the rendered bytes begin with the
status line `"HTTP/1.0 <status> <name>\r\n"`, `<name>` being the
`getstatus` lookup of the current status — i.e. the protocol token is
`HTTP/1.0`, not `HTTP/1.1`. -/
theorem render_starts_with_http10 (r : Response) :
    ∃ rest, r.render =
      "HTTP/1.0 " ++ Nat.repr r.status ++ " " ++ (getstatus r.status).1 ++ "\r\n" ++ rest := by
  refine ⟨pyJoin (r.renderHeaderList.map (fun kv => kv.1 ++ ": " ++ kv.2 ++ "\r\n"))
    ++ "\r\n" ++ r.body ++ "\r\n", ?_⟩
  simp only [Response.render, String.append_assoc]

theorem contentLengthLit : ("content-length: " : String) = "content-length" ++ ": " := rfl

/-- C4: at every call to `Response.__str__` the rendered output contains a
`content-length` header equal to the length of the body at that moment —
here for a response constructed with arbitrary arguments and then mutated
to an arbitrary new body before rendering. -/
theorem render_content_length (body0 : Option String) (status : Nat)
    (headers0 : List (String × String)) (newBody : String) :
    ∃ pre post,
      ({ Response.init body0 status headers0 with body := newBody }).render =
        pre ++ "content-length: " ++ Nat.repr newBody.length ++ "\r\n" ++ post := by
  obtain ⟨l1, l2, he⟩ := dictInsert_split "content-length" (Nat.repr newBody.length)
    ({ Response.init body0 status headers0 with body := newBody }).headers
  refine ⟨"HTTP/1.0 " ++ Nat.repr status ++ " " ++ (getstatus status).1 ++ "\r\n"
      ++ pyJoin (l1.map (fun kv => kv.1 ++ ": " ++ kv.2 ++ "\r\n")),
    pyJoin (l2.map (fun kv => kv.1 ++ ": " ++ kv.2 ++ "\r\n")) ++ "\r\n" ++ newBody ++ "\r\n", ?_⟩
  simp only [Response.init] at he
  simp only [Response.render, Response.renderHeaderList, Response.init, he, List.map_append,
    List.map_cons, pyJoin_append, pyJoin, contentLengthLit, String.append_assoc]

theorem users_id_route_atoms :
    routeAtoms "/users/:id" = [Atom.ch '/', Atom.ch 'u', Atom.ch 's', Atom.ch 'e',
      Atom.ch 'r', Atom.ch 's', Atom.ch '/', Atom.wild] := by decide

/-- C2 counterexample: the matching expression built for `/users/:id`
rewrites `:id` to `[^/].*`, whose `.*` also matches slashes, so the anchored
match against `/users/1/extra` succeeds — the claim says extra trailing
segments make it fail. -/
theorem users_id_matches_extra_segment :
    routeMatches "/users/:id" "/users/1/extra" = true := by decide

/-- C2 (amended): a pattern segment beginning with `:` matches any
non-empty character sequence whose first character is not `/` — it may span
several `/`-separated segments.  So `/users/:id` matches `/users/` followed
by any first character other than `/` and then anything at all (slashes
included), fails on an empty trailing value, and in particular does match
`/users/1/extra`. -/
theorem users_id_wildcard_spans :
    (∀ (c : Char) (t : List Char),
       routeMatches "/users/:id" ⟨'/' :: 'u' :: 's' :: 'e' :: 'r' :: 's' :: '/' :: c :: t⟩ =
         !(c == '/')) ∧
    routeMatches "/users/:id" "/users/" = false ∧
    routeMatches "/users/:id" "/users/1/extra" = true := by
  refine ⟨?_, by decide, by decide⟩
  intro c t
  rw [routeMatches, users_id_route_atoms]
  show matchAtoms _ ('/' :: 'u' :: 's' :: 'e' :: 'r' :: 's' :: '/' :: c :: t) = _
  simp only [matchAtoms, beq_self_eq_true, Bool.true_and, matchAtoms_nil]
  cases h : (c == '/') with
  | false => simp [range_any_drop_isEmpty t]
  | true => simp

theorem pyJoin_pair (a b : String) : pyJoin [a, b] = a ++ b := by
  simp [pyJoin, String.append_empty]

/-- C3 counterexample: for a raw request whose body spans two lines, the
constructed body is not the raw content after the blank-line separator
(`"line1\r\nline2"`): the `''.join` of the source drops the line
separators. -/
theorem request_body_not_raw_suffix :
    (Request.init "POST /x HTTP/1.1\r\nHost: a\r\n\r\nline1\r\nline2").map Request.body ≠
      some "line1\r\nline2" := by decide

/-- C3 (amended): the constructed body is the concatenation of the lines
after the first blank line with their separators removed — for a
two-line body `b1 ++ "\r\n" ++ b2` (terminator-free `b1`, `b2`) the body
field is `b1 ++ b2`.  (For a single-line body the raw content is thereby
preserved; separators between body lines are not.) -/
theorem request_body_concatenates_lines (b1 b2 : String)
    (h1 : b1.data.all (fun c => !(c == '\r') && !(c == '\n')) = true)
    (h2 : b2.data.all (fun c => !(c == '\r') && !(c == '\n')) = true) :
    (Request.init ("POST /x HTTP/1.1\r\nHost: a\r\n\r\n" ++ b1 ++ "\r\n" ++ b2)).map Request.body =
      some (b1 ++ b2) := by
  obtain ⟨l1⟩ := b1
  obtain ⟨l2⟩ := b2
  simp only at h1 h2
  have hs : splitlines ("POST /x HTTP/1.1\r\nHost: a\r\n\r\n" ++ ⟨l1⟩ ++ "\r\n" ++ ⟨l2⟩) =
      "POST /x HTTP/1.1" :: "Host: a" :: "" :: (⟨l1⟩ : String) :: splitlinesGo l2 [] := by
    rw [splitlines]
    have hd : (("POST /x HTTP/1.1\r\nHost: a\r\n\r\n" ++ ⟨l1⟩ ++ "\r\n" ++ ⟨l2⟩ : String)).data
        = ("POST /x HTTP/1.1\r\nHost: a\r\n\r\n").data ++ (l1 ++ ('\r' :: '\n' :: l2)) := by
      simp [String.data_append, List.append_assoc]
    rw [hd]
    rw [show splitlinesGo (("POST /x HTTP/1.1\r\nHost: a\r\n\r\n").data
          ++ (l1 ++ ('\r' :: '\n' :: l2))) []
        = "POST /x HTTP/1.1" :: "Host: a" :: "" :: splitlinesGo (l1 ++ ('\r' :: '\n' :: l2)) []
        from rfl]
    rw [splitlinesGo_noterm l1 h1, splitlinesGo_crlf]
    simp
  rcases l2 with _ | ⟨c2, t2⟩
  · simp only [Request.init, hs]
    rfl
  · have htail : splitlinesGo (c2 :: t2) [] = [⟨c2 :: t2⟩] := by
      have h3 := splitlinesGo_noterm (c2 :: t2) h2 [] []
      rw [List.append_nil] at h3
      rw [h3]
      simp [splitlinesGo]
    simp only [Request.init, hs, htail]
    show some (pyJoin [(⟨l1⟩ : String), ⟨c2 :: t2⟩]) = some ((⟨l1⟩ : String) ++ ⟨c2 :: t2⟩)
    rw [pyJoin_pair]

/-- Witness for C3 (amended) at the concrete two-line body
`"line1\r\nline2"`: the parsed body is `"line1" ++ "line2"`. -/
theorem request_body_concatenates_lines_witness :
    (Request.init ("POST /x HTTP/1.1\r\nHost: a\r\n\r\n" ++ "line1" ++ "\r\n" ++ "line2")).map
        Request.body = some ("line1" ++ "line2") :=
  request_body_concatenates_lines "line1" "line2" (by decide) (by decide)

/-- C5: `resolve` tries bindings sorted by pattern string length
descending and picks the first whose methods contain the request method
and whose pattern matches.  With `/users/:id` and `/users/profile` both
registered for GET (in either insertion order), `/users/:id` also matches
`/users/profile`, yet GET `/users/profile` resolves to the
`/users/profile` binding because it is longer; `/users/:id` still matches
other single-segment values such as `/users/42`. -/
theorem resolve_longest_pattern_first (f g : Handler) :
    routeMatches "/users/:id" "/users/profile" = true ∧
    resolve [(("/users/:id", ["GET"]), f), (("/users/profile", ["GET"]), g)]
        { method := "GET", path := "/users/profile", protocol := "HTTP/1.1",
          headers := [], body := "" } =
      .ok ("/users/profile", ["GET"], g, []) ∧
    resolve [(("/users/profile", ["GET"]), g), (("/users/:id", ["GET"]), f)]
        { method := "GET", path := "/users/profile", protocol := "HTTP/1.1",
          headers := [], body := "" } =
      .ok ("/users/profile", ["GET"], g, []) ∧
    resolve [(("/users/:id", ["GET"]), f), (("/users/profile", ["GET"]), g)]
        { method := "GET", path := "/users/42", protocol := "HTTP/1.1",
          headers := [], body := "" } =
      .ok ("/users/:id", ["GET"], f, [("id", "42")]) := by
  exact ⟨rfl, rfl, rfl, rfl⟩

theorem mem_insertByLenDesc (x y : Endpoint) (l : List Endpoint)
    (h : x ∈ insertByLenDesc y l) : x = y ∨ x ∈ l := by
  induction l with
  | nil =>
    simp only [insertByLenDesc, List.mem_singleton] at h
    exact Or.inl h
  | cons z zs ih =>
    by_cases hc : endpointKeyLen z ≤ endpointKeyLen y
    · simpa [insertByLenDesc, hc, List.mem_cons] using h
    · simp only [insertByLenDesc, hc, if_false, List.mem_cons] at h
      rcases h with h | h
      · right; simp [h]
      · rcases ih h with h2 | h2
        · left; exact h2
        · right; simp [h2]

theorem mem_sortEndpoints (x : Endpoint) (l : List Endpoint) (h : x ∈ sortEndpoints l) :
    x ∈ l := by
  induction l with
  | nil => simp [sortEndpoints] at h
  | cons y ys ih =>
    rcases mem_insertByLenDesc x y (sortEndpoints ys) (by simpa [sortEndpoints] using h)
      with h2 | h2
    · simp [h2]
    · simp [ih h2]

theorem resolveGo_nomatch (req : Request) (l : List Endpoint)
    (h : ∀ ep ∈ l, (ep.1.2.contains req.method && routeMatches ep.1.1 req.path) = false) :
    resolveGo req l =
      .error { message := "No route found for request " ++ Request.str req, status := 404 } := by
  induction l with
  | nil => rfl
  | cons ep rest ih =>
    have he := h ep (by simp)
    simp only [resolveGo, he, Bool.false_eq_true, if_false]
    exact ih (fun e hm => h e (by simp [hm]))

/-- C6: when no registered binding matches the parsed request
(method not in the binding's methods, or pattern not matching the path),
`resolve` raises an `HTTPException` with status 404, and `handle` turns it
into a `Response` of status 404 whose body contains (here: begins with)
"No route found". -/
theorem no_route_found_404 (endpoints : List Endpoint) (debug : Bool) (bytes : String)
    (req : Request)
    (hparse : Request.init bytes = some req)
    (hnomatch : ∀ ep ∈ endpoints,
      (ep.1.2.contains req.method && routeMatches ep.1.1 req.path) = false) :
    resolve endpoints req =
      .error { message := "No route found for request " ++ req.method ++ " " ++ req.path,
               status := 404 } ∧
    ∃ resp, App.handle endpoints debug bytes = some (.response resp) ∧
      resp.status = 404 ∧ ∃ rest, resp.body = "No route found" ++ rest := by
  have hres : resolve endpoints req =
      .error { message := "No route found for request " ++ Request.str req, status := 404 } :=
    resolveGo_nomatch req (sortEndpoints endpoints)
      (fun ep hm => hnomatch ep (mem_sortEndpoints ep endpoints hm))
  constructor
  · rw [hres]; simp [Request.str, String.append_assoc]
  · refine ⟨Response.init (some ("No route found for request " ++ Request.str req)) 404 [],
      ?_, rfl, ?_⟩
    · simp only [App.handle, hparse, hres]
    · refine ⟨" for request " ++ req.method ++ " " ++ req.path, ?_⟩
      show "No route found for request " ++ Request.str req = _
      rw [Request.str]
      rw [show ("No route found for request " : String) = "No route found" ++ " for request "
        from rfl]
      simp [String.append_assoc]
      rfl

/-- Witness for C6: the raw request `GET /nope HTTP/1.1` against an empty
route table parses, resolves to the 404 exception and handles to a 404
response whose body starts with "No route found". -/
theorem no_route_found_404_witness :
    resolve []
        { method := "GET", path := "/nope", protocol := "HTTP/1.1",
          headers := [], body := "" } =
      .error { message := "No route found for request " ++ "GET" ++ " " ++ "/nope",
               status := 404 } ∧
    ∃ resp, App.handle [] false "GET /nope HTTP/1.1\r\n\r\n" = some (.response resp) ∧
      resp.status = 404 ∧ ∃ rest, resp.body = "No route found" ++ rest :=
  no_route_found_404 [] false "GET /nope HTTP/1.1\r\n\r\n"
    { method := "GET", path := "/nope", protocol := "HTTP/1.1", headers := [], body := "" }
    (by decide) (by simp)

/-- C7: when the handler invoked by `handle` raises a failure that is not
an `HTTPException`, `handle` builds `Response("<class>: <message>", 500)`;
with debug off that response is returned, with debug on the failure
propagates out of `handle` (re-raised after the response is constructed). -/
theorem handler_failure_500_or_reraise (endpoints : List Endpoint) (bytes : String)
    (req : Request) (route : String) (methods : List String) (callback : Handler)
    (arguments : List (String × String)) (cls msg : String)
    (hparse : Request.init bytes = some req)
    (hres : resolve endpoints req = .ok (route, methods, callback, arguments))
    (hcall : callback arguments = .failure cls msg) :
    App.handle endpoints false bytes =
      some (.response (Response.init (some (cls ++ ": " ++ msg)) 500 [])) ∧
    (Response.init (some (cls ++ ": " ++ msg)) 500 []).status = 500 ∧
    (Response.init (some (cls ++ ": " ++ msg)) 500 []).body = cls ++ ": " ++ msg ∧
    App.handle endpoints true bytes = some (.reraise cls msg) := by
  refine ⟨?_, rfl, rfl, ?_⟩ <;> simp only [App.handle, hparse, hres, hcall] <;> rfl

/-- Witness for C7: a root handler that raises `ValueError("boom")` yields
a 500 response with body "ValueError: boom" when debug is off, and the
failure propagates when debug is on. -/
theorem handler_failure_500_or_reraise_witness :
    App.handle [(("/", ["GET"]), fun _ => .failure "ValueError" "boom")] false
        "GET / HTTP/1.1\r\n\r\n" =
      some (.response (Response.init (some ("ValueError" ++ ": " ++ "boom")) 500 [])) ∧
    (Response.init (some ("ValueError" ++ ": " ++ "boom")) 500 []).status = 500 ∧
    (Response.init (some ("ValueError" ++ ": " ++ "boom")) 500 []).body =
      "ValueError" ++ ": " ++ "boom" ∧
    App.handle [(("/", ["GET"]), fun _ => .failure "ValueError" "boom")] true
        "GET / HTTP/1.1\r\n\r\n" = some (.reraise "ValueError" "boom") :=
  handler_failure_500_or_reraise [(("/", ["GET"]), fun _ => .failure "ValueError" "boom")]
    "GET / HTTP/1.1\r\n\r\n"
    { method := "GET", path := "/", protocol := "HTTP/1.1", headers := [], body := "" }
    "/" ["GET"] (fun _ => .failure "ValueError" "boom") [] "ValueError" "boom"
    (by decide) rfl rfl

/-- C8: `Request.json` with `failsafe=True` returns the absent value
(`none`) when the body fails to decode and never raises (for every codec
and request the result is a normal value); with `failsafe=False` a
malformed body raises an `HTTPException` of status 400 whose message names
the codec error. -/
theorem json_failsafe_and_400 {α : Type} (loads : String → Except String α) (req : Request)
    (e : String) (hdec : loads req.body = .error e) :
    Request.json loads req true = .ok none ∧
    (∀ (loads2 : String → Except String α) (r2 : Request),
      ∃ v, Request.json loads2 r2 true = .ok v) ∧
    Request.json loads req false =
      .error { message := "Invalid JSON (" ++ e ++ ")", status := 400 } := by
  refine ⟨?_, ?_, ?_⟩
  · simp [Request.json, hdec]
  · intro loads2 r2
    cases h2 : loads2 r2.body with
    | ok v => exact ⟨some v, by simp [Request.json, h2]⟩
    | error e2 => exact ⟨none, by simp [Request.json, h2]⟩
  · simp [Request.json, hdec]

/-- Witness for C8: a codec that rejects the body `"not json"` with
"syntax error" gives `none` under failsafe and an `HTTPException` of
status 400 otherwise. -/
theorem json_failsafe_and_400_witness :
    Request.json (fun _ => (.error "syntax error" : Except String Unit))
        { method := "GET", path := "/", protocol := "HTTP/1.1", headers := [],
          body := "not json" } true = .ok none ∧
    (∀ (loads2 : String → Except String Unit) (r2 : Request),
      ∃ v, Request.json loads2 r2 true = .ok v) ∧
    Request.json (fun _ => (.error "syntax error" : Except String Unit))
        { method := "GET", path := "/", protocol := "HTTP/1.1", headers := [],
          body := "not json" } false =
      .error { message := "Invalid JSON (" ++ "syntax error" ++ ")", status := 400 } :=
  json_failsafe_and_400 (fun _ => (.error "syntax error" : Except String Unit))
    { method := "GET", path := "/", protocol := "HTTP/1.1", headers := [], body := "not json" }
    "syntax error" rfl

/-- C10: the `endpoints` route table is class-level state of `App`, shared
by all instances: registration through any instance updates the same
class-level table (`App.route` does not depend on the instance), and a
route registered through instance `a` is then found by `resolve` called
through any other instance `b`. -/
theorem endpoints_class_level_shared (a b : AppInst) (f : Handler) :
    (∀ (st : AppClassState) (r : String) (ms : List String) (g : Handler),
       App.route st a r ms g = App.route st b r ms g) ∧
    App.resolveInst (App.route ⟨[]⟩ a "/users/:id" ["GET"] f) b
        { method := "GET", path := "/users/42", protocol := "HTTP/1.1",
          headers := [], body := "" } =
      .ok ("/users/:id", ["GET"], f, [("id", "42")]) := by
  exact ⟨fun _ _ _ _ => rfl, rfl⟩

end Mhask
